import Mathlib

/-!
Verification of the vs30_data estimation engine against its specification.

The Python sources are shallowly embedded here:
* floating-point numbers whose arithmetic is purely rational (sums, products,
  divisions, comparisons) are modelled as `ℚ` (every IEEE float is a rational);
* values produced by transcendental functions (`np.log`, `np.sqrt`, `10 ** x`)
  are modelled as `ℝ`;
* a Python float `NaN` is modelled as `none : Option ℝ`;
* code that can raise is modelled with `Except String` / `Option`;
* Python dicts are modelled as association lists (`List (String × ℚ)`);
  `dict[k]` lookups take the first matching key.
-/

/-- Python `int(x)` truncates toward zero. -/
def pyInt (q : ℚ) : ℤ := if q < 0 then ⌈q⌉ else ⌊q⌋

/-- Base-10 logarithm, `np.log10` (total in this model: `Real.log` of a
nonpositive argument is `0` where numpy would produce `nan`/`-inf`). -/
noncomputable def log10 (x : ℝ) : ℝ := Real.log x / Real.log 10

/-- Sum of the values of a weight dictionary (`sum(weights.values())`). -/
def dictSum (w : List (String × ℚ)) : ℚ := (w.map (·.2)).sum

/-- `vs_calc.utils.normalise_weights`: rejects a non-empty weight set whose raw
sum is outside `[0.98, 1.02]`; otherwise divides each weight by the raw sum
(returning the dict unchanged when the sum is exactly 1). -/
def normalise_weights (weights : List (String × ℚ)) : Except String (List (String × ℚ)) :=
  if weights.length ≠ 0 then
    let inital_sum := dictSum weights
    if inital_sum < 98/100 ∨ inital_sum > 102/100 then
      Except.error "Weights sum is not close enough to 1"
    else if inital_sum ≠ 1 then
      Except.ok (weights.map (fun kv => (kv.1, kv.2 / inital_sum)))
    else
      Except.ok weights
  else
    Except.ok weights

/-- Python `d1.update(d2)`: afterwards a lookup finds `d2`'s value for keys of
`d2` and `d1`'s value otherwise. -/
def dictUpdate (d1 d2 : List (String × ℚ)) : List (String × ℚ) :=
  d1.filter (fun kv => (d2.find? (fun kv2 => kv2.1 = kv.1)).isNone) ++ d2

/-- Python `d[k]`: first value stored under `k`, `KeyError` if absent. -/
def dictGet (d : List (String × ℚ)) (k : String) : Except String ℚ :=
  match d.find? (fun kv => kv.1 = k) with
  | some kv => Except.ok kv.2
  | none => Except.error "KeyError"

/-- A `VsProfile` as seen by the weighted aggregator: its identity, the names
of the correlations that produced it, and its (memoized) `vs30` / `vs30_sd`
values, which are plain floats by the time the aggregator reads them. -/
structure AggProfile where
  name : String
  vs_correlation : Option String
  vs30_correlation : Option String
  vs30 : ℚ
  vs30_sd : ℚ

/-- `vs_calc.calc_weightings.get_weight`: identity weight times the velocity
correlation weight (1 if the profile has none) times the depth-correction
correlation weight (1 if none); `KeyError` on a missing dictionary entry. -/
def get_weight (p : AggProfile) (vs_weights vs_correlations vs30_correlations :
    List (String × ℚ)) : Except String ℚ := do
  let w1 ← dictGet vs_weights p.name
  let w2 ← match p.vs_correlation with
    | none => Except.ok 1
    | some c => dictGet vs_correlations c
  let w3 ← match p.vs30_correlation with
    | none => Except.ok 1
    | some c => dictGet vs30_correlations c
  return w1 * w2 * w3

/-- `vs_calc.calc_weightings.calculate_weighted_vs30`: normalises the four
weight dictionaries, merges the SPT correlation weights into the CPT ones,
computes the weighted mean Vs30 and the mixture variance
`Σ wᵢ σᵢ² + Σ wᵢ (xᵢ − μ)²`, and reports `log(sqrt(variance))` as the
standard deviation (0 when the variance is 0). -/
noncomputable def calculate_weighted_vs30 (vs_profiles : List AggProfile)
    (vs_weights cpt_vs_correlation_weights spt_vs_correlation_weights
      vs30_correlation_weights : List (String × ℚ)) : Except String (ℚ × ℝ) := do
  let vsW ← normalise_weights vs_weights
  let cptW ← normalise_weights cpt_vs_correlation_weights
  let sptW ← normalise_weights spt_vs_correlation_weights
  let vs30W ← normalise_weights vs30_correlation_weights
  let corrW := dictUpdate cptW sptW
  let ws ← vs_profiles.mapM (fun p => get_weight p vsW corrW vs30W)
  let average_vs30 := ((ws.zip vs_profiles).map (fun q => q.1 * q.2.vs30)).sum
  let average_vs30_variance :=
    ((ws.zip vs_profiles).map (fun q =>
      q.1 * q.2.vs30_sd ^ 2 + q.1 * (q.2.vs30 - average_vs30) ^ 2)).sum
  return (average_vs30,
    if average_vs30_variance = 0 then (0 : ℝ)
    else Real.log (Real.sqrt ((average_vs30_variance : ℚ) : ℝ)))

/-- Recursion core of `vs_calc.utils.convert_to_midpoint`: walks the index
list of `depths` carrying `(prev_depth, prev_measure)` (Python's `None` state
is `none`) and the accumulated output lists; `none` models an `IndexError`. -/
def ctm_go (measures depths : List ℚ) (layered : Bool) :
    List ℕ → Option (ℚ × ℚ) → List ℚ → List ℚ → Option (List ℚ × List ℚ)
  | [], _, accM, accD => some (accM, accD)
  | ix :: rest, prev, accM, accD =>
    match measures.get? ix, depths.get? ix with
    | some measure, some depth =>
      let step1 : Option (List ℚ × List ℚ) :=
        if ix = 0 then
          if measure = 0 then
            match measures.get? 1 with
            | none => none
            | some m1 => some (accM ++ [m1], accD ++ [0])
          else some (accM ++ [measure], accD ++ [0])
        else
          match prev with
          | some pdm =>
            let nd := if layered then pdm.1 else (depth + pdm.1) / 2
            some (accM ++ [pdm.2, measure], accD ++ [nd, nd])
          | none => some (accM, accD)
      match step1 with
      | none => none
      | some acc2 =>
        let acc3 := if ix = depths.length - 1
          then (acc2.1 ++ [measure], acc2.2 ++ [depth]) else acc2
        let prev2 := if ix ≠ 0 ∨ measure ≠ 0 then some (depth, measure) else prev
        ctm_go measures depths layered rest prev2 acc3.1 acc3.2
    | _, _ => none

/-- `vs_calc.utils.convert_to_midpoint`: returns `(new_measures, new_depths)`
of the stair-step ("midpoint") series. -/
def convert_to_midpoint (measures depths : List ℚ) (layered : Bool) :
    Option (List ℚ × List ℚ) :=
  ctm_go measures depths layered (List.range depths.length) none [] []

/-- Travel-time loop of `VsProfile.calc_vsz`: sums
`(depth_midpoint[ix] - depth_midpoint[ix-1]) / vs_midpoint[ix]` over the given
odd indices; `none` models an `IndexError` or a division by zero. -/
def time_go (vm dm : List ℚ) : List ℕ → Option ℚ
  | [] => some 0
  | ix :: rest =>
    match vm.get? ix, dm.get? ix, dm.get? (ix - 1) with
    | some v, some d2, some d1 =>
      if v = 0 then none
      else
        match time_go vm dm rest with
        | none => none
        | some t => some ((d2 - d1) / v + t)
    | _, _, _ => none

/-- The total travel time of `VsProfile.calc_vsz`
(`for ix in range(1, len(vs_midpoint), 2)`). -/
def calc_vsz_time (vm dm : List ℚ) : Option ℚ :=
  time_go vm dm (List.range' 1 (vm.length / 2) 2)

/-- The data of a constructed `VsProfile` as consumed by `calc_vsz`,
`calc_vs30` and the depth-correction correlations. -/
structure VsProfileS where
  name : String
  vs : List ℚ
  vs_sd : List ℚ
  depth : List ℚ
  vs_correlation : Option String
  vs30_correlation : Option String
  max_depth : ℚ

/-- `VsProfile.calc_vsz`: depth-averaged velocity
`max_depth / total travel time` over the midpoint series. -/
def calc_vsz (p : VsProfileS) : Option ℚ :=
  match convert_to_midpoint p.vs p.depth false with
  | none => none
  | some md =>
    match calc_vsz_time md.1 md.2 with
    | none => none
    | some time => if time = 0 then none else some (p.max_depth / time)

/-- One row `[C0, C1, C2, SD]` of the Boore et al. (2011) coefficient table. -/
structure B11Row where
  c0 : ℚ
  c1 : ℚ
  c2 : ℚ
  sd : ℚ

/-- `vs_calc.vs30_correlations.VS30_BOORE_2011_COEFFS` (25 rows, depths 5–29). -/
def VS30_BOORE_2011_COEFFS : List B11Row :=
  [⟨0.2046, 1.318, -0.1174, 0.119⟩,
   ⟨-0.06072, 1.482, -0.1423, 0.111⟩,
   ⟨-0.2744, 1.607, -0.1600, 0.103⟩,
   ⟨-0.3723, 1.649, -0.1634, 0.097⟩,
   ⟨-0.4941, 1.707, -0.1692, 0.090⟩,
   ⟨-0.5438, 1.715, -0.1667, 0.084⟩,
   ⟨-0.6006, 1.727, -0.1649, 0.078⟩,
   ⟨-0.6082, 1.707, -0.1576, 0.072⟩,
   ⟨-0.6322, 1.698, -0.1524, 0.067⟩,
   ⟨-0.6118, 1.659, -0.1421, 0.062⟩,
   ⟨-0.5780, 1.611, -0.1303, 0.056⟩,
   ⟨-0.5430, 1.565, -0.1193, 0.052⟩,
   ⟨-0.5282, 1.535, -0.1115, 0.047⟩,
   ⟨-0.4960, 1.494, -0.1020, 0.043⟩,
   ⟨-0.4552, 1.447, -0.09156, 0.038⟩,
   ⟨-0.4059, 1.396, -0.08064, 0.035⟩,
   ⟨-0.3827, 1.365, -0.07338, 0.030⟩,
   ⟨-0.3531, 1.331, -0.06585, 0.027⟩,
   ⟨-0.3158, 1.291, -0.05751, 0.023⟩,
   ⟨-0.2736, 1.250, -0.04896, 0.019⟩,
   ⟨-0.2227, 1.202, -0.03943, 0.016⟩,
   ⟨-0.1768, 1.159, -0.03087, 0.013⟩,
   ⟨-0.1349, 1.120, -0.02310, 0.009⟩,
   ⟨-0.09038, 1.080, -0.01527, 0.006⟩,
   ⟨-0.04612, 1.040, -0.007618, 0.003⟩]

/-- One row `[a, b, sigma]` of the Boore et al. (2004) coefficient table. -/
structure B04Row where
  a : ℚ
  b : ℚ
  sigma : ℚ

/-- `vs_calc.vs30_correlations.VS30_BOORE_2004_COEFFS` (20 rows, depths 10–29). -/
def VS30_BOORE_2004_COEFFS : List B04Row :=
  [⟨0.042062, 1.0292, 0.07126⟩,
   ⟨0.02214, 1.0341, 0.064722⟩,
   ⟨0.012571, 1.0352, 0.059352999999999996⟩,
   ⟨0.014186, 1.0318, 0.054754⟩,
   ⟨0.0123, 1.0297, 0.050086000000000006⟩,
   ⟨0.013795, 1.0263, 0.045925⟩,
   ⟨0.013893, 1.0237, 0.042219⟩,
   ⟨0.019565, 1.019, 0.039422000000000006⟩,
   ⟨0.024879, 1.0144, 0.036365⟩,
   ⟨0.025613999999999998, 1.0117, 0.033233⟩,
   ⟨0.025439, 1.0095, 0.030181⟩,
   ⟨0.025311, 1.0072, 0.027001⟩,
   ⟨0.0269, 1.0044, 0.024087⟩,
   ⟨0.022207, 1.0042, 0.020825999999999997⟩,
   ⟨0.016891, 1.0043, 0.017676⟩,
   ⟨0.011483000000000002, 1.0045, 0.014691000000000001⟩,
   ⟨0.0065646, 1.0045, 0.011452⟩,
   ⟨0.002519, 1.0043, 0.0083871⟩,
   ⟨0.00077322, 1.0031, 0.0055264⟩,
   ⟨0.00043143000000000006, 1.0015, 0.0027355⟩]

/-- The Vs30 value of `boore_2011`:
`10 ** (C0 + C1*log10(vsz) + C2*log10(vsz)**2)`. -/
noncomputable def b11_vs30 (c : B11Row) (vsz : ℚ) : ℝ :=
  (10 : ℝ) ^ ((c.c0 : ℝ) + (c.c1 : ℝ) * log10 (vsz : ℝ)
    + (c.c2 : ℝ) * (log10 (vsz : ℝ)) ^ 2)

/-- The Vs30 standard deviation of `boore_2011`:
`sqrt(SD**2 + d_vs30**2)` with the analytic derivative term. -/
noncomputable def b11_sd (c : B11Row) (vsz : ℚ) : ℝ :=
  let log_vsz := Real.log (vsz : ℝ)
  let d_vs30 := ((c.c1 : ℝ) * (10 : ℝ) ^ ((c.c1 : ℝ) * log10 log_vsz)
    + 2 * (c.c2 : ℝ) * log10 log_vsz
      * (10 : ℝ) ^ ((c.c2 : ℝ) * (log10 log_vsz) ^ 2)) / log_vsz
  Real.sqrt ((c.sd : ℝ) ^ 2 + d_vs30 ^ 2)

/-- `vs_calc.vs30_correlations.boore_2011`: raises `IndexError("VsProfile is
not deep enough")` when `int(max_depth) - 5 < 0`, otherwise reads the
coefficient row at that index and returns `(vs30, vs30_sd)`. -/
noncomputable def boore_2011 (p : VsProfileS) : Except String (Option ℝ × Option ℝ) :=
  let max_depth : ℤ := pyInt p.max_depth
  let index : ℤ := max_depth - 5
  if index < 0 then Except.error "VsProfile is not deep enough"
  else
    match VS30_BOORE_2011_COEFFS.get? index.toNat with
    | none => Except.error "IndexError"
    | some c =>
      match calc_vsz p with
      | none => Except.error "error computing vsz"
      | some vszq => Except.ok (some (b11_vs30 c vszq), some (b11_sd c vszq))

/-- The Vs30 value of `boore_2004`: `10 ** (a + b*log10(vsz))`. -/
noncomputable def b04_vs30 (c : B04Row) (vsz : ℚ) : ℝ :=
  (10 : ℝ) ^ ((c.a : ℝ) + (c.b : ℝ) * log10 (vsz : ℝ))

/-- `vs_calc.vs30_correlations.boore_2004`: returns the NaN sentinel pair
`(nan, nan)` (modelled `(none, none)`) when `int(max_depth) - 10 < 0`,
otherwise reads the coefficient row at that index and returns
`(vs30, sigma)`. -/
noncomputable def boore_2004 (p : VsProfileS) : Except String (Option ℝ × Option ℝ) :=
  let max_depth : ℤ := pyInt p.max_depth
  let index : ℤ := max_depth - 10
  if index < 0 then Except.ok (none, none)
  else
    match VS30_BOORE_2004_COEFFS.get? index.toNat with
    | none => Except.error "IndexError"
    | some c =>
      match calc_vsz p with
      | none => Except.error "error computing vsz"
      | some vszq => Except.ok (some (b04_vs30 c vszq), some (c.sigma : ℝ))

/-- Registry lookup in a `{name: function}` dict (first matching key). -/
def registryGet {α : Type} (l : List (String × α)) (k : String) : Option α :=
  (l.find? (fun kv => kv.1 = k)).map (·.2)

/-- `vs_calc.vs30_correlations.VS30_CORRELATIONS`. -/
noncomputable def VS30_CORRELATIONS :
    List (String × (VsProfileS → Except String (Option ℝ × Option ℝ))) :=
  [("boore_2011", boore_2011), ("boore_2004", boore_2004)]

/-- `VsProfile.calc_vs30`: `(vsz, 0)` when the capped maximum depth is exactly
30, otherwise dispatches to the registered depth-correction correlation
(`KeyError` when the stored name — possibly `None` — is not registered). -/
noncomputable def calc_vs30 (p : VsProfileS) : Except String (Option ℝ × Option ℝ) :=
  if p.max_depth = 30 then
    match calc_vsz p with
    | none => Except.error "error computing vsz"
    | some v => Except.ok (some (v : ℝ), some 0)
  else
    match p.vs30_correlation.bind (fun s => registryGet VS30_CORRELATIONS s) with
    | none => Except.error "not found in set of correlations"
    | some f => f p

/-- Three-list `zipWith` (numpy elementwise arithmetic over co-indexed
channels truncates at the shortest list, which never happens for the
equal-length channels of a constructed CPT). -/
def zipWith3 {α β γ δ : Type} (f : α → β → γ → δ) : List α → List β → List γ → List δ
  | a :: as, b :: bs, c :: cs => f a b c :: zipWith3 f as bs cs
  | _, _, _ => []

/-- `vs_calc.CPT.CPT`: measurement channels plus the four lazily cached
derived-parameter slots (`_qt`, `_Ic`, `_Qtn`, `_effStress` are `cqt`,
`cIc`, `cQtn`, `ceff`; `none` is Python's `None`). `qt` is rational
arithmetic, the other three involve logarithms and live in `ℝ`. -/
structure CPT where
  name : String
  depth : List ℚ
  Qc : List ℚ
  Fs : List ℚ
  u : List ℚ
  nztm_x : ℚ := 0
  nztm_y : ℚ := 0
  ground_water_level : ℚ := 1
  net_area_ratio : ℚ := 4/5
  cqt : Option (List ℚ) := none
  cIc : Option (List ℝ) := none
  cQtn : Option (List ℝ) := none
  ceff : Option (List ℝ) := none

/-- The value computed by the `CPT.qt` property:
`Qc - u * (1 - net_area_ratio)`. -/
def qtRaw (c : CPT) : List ℚ :=
  List.zipWith (fun qc uu => qc - uu * (1 - c.net_area_ratio)) c.Qc c.u

/-- The `CPT.qt` memoized getter: returns the cached list if present,
otherwise computes it and fills the cache. -/
def getQt (c : CPT) : List ℚ × CPT :=
  match c.cqt with
  | some v => (v, c)
  | none => (qtRaw c, { c with cqt := some (qtRaw c) })

/-- The value computed by the `CPT.Ic` property (Robertson 2010,
`pa = 0.1` MPa, `Rf = Fs/Qc*100`). -/
noncomputable def IcRaw (c : CPT) : List ℝ :=
  List.zipWith (fun qc fs =>
    ((3.47 - log10 ((qc : ℝ) / 0.1)) ^ 2
      + (log10 (((fs : ℝ) / (qc : ℝ)) * 100) + 1.22) ^ 2) ^ ((0.5 : ℝ)))
    c.Qc c.Fs

/-- The `CPT.Ic` memoized getter. -/
noncomputable def getIc (c : CPT) : List ℝ × CPT :=
  match c.cIc with
  | some v => (v, c)
  | none => (IcRaw c, { c with cIc := some (IcRaw c) })

/-- The value computed by the `CPT.gamma` property (Robertson & Cabal 2010
soil unit weight, with the constant fallback where `Qc <= 0` or `Fs <= 0`);
`qt` is the (possibly cached) net resistance. -/
noncomputable def gammaRaw (qt : List ℚ) (c : CPT) : List ℝ :=
  zipWith3 (fun qc fs q =>
    if qc ≤ 0 ∨ fs ≤ 0 then 0.00981 * 1.9
    else (0.27 * log10 (((fs : ℝ) / (q : ℝ)) * 100)
      + 0.36 * log10 ((q : ℝ) / 0.1) + 1.236) * 9.80665 / 1000)
    c.Qc c.Fs qt

/-- The `CPT.gamma` property: accessing it computes (and caches) `qt`. -/
noncomputable def getGamma (c : CPT) : List ℝ × CPT :=
  let qt_c := getQt c
  (gammaRaw qt_c.1 qt_c.2, qt_c.2)

/-- Forward-difference accumulation of total vertical stress
(`totalStress[i] = gamma[i]*(depth[i]-depth[i-1]) + totalStress[i-1]`). -/
noncomputable def ts_go (g : List ℝ) (d : List ℚ) : ℕ → ℝ
  | 0 => 0
  | i + 1 => g.getD (i + 1) 0 * (((d.getD (i + 1) 0 : ℚ) : ℝ) - ((d.getD i 0 : ℚ) : ℝ))
      + ts_go g d i

/-- Pore-pressure accumulation: `u0[i]` is accumulated only where
`depth[i] >= ground_water_level` and stays `0` elsewhere. -/
noncomputable def u0_go (d : List ℚ) (gwl : ℚ) : ℕ → ℝ
  | 0 => 0
  | i + 1 =>
    if gwl ≤ d.getD (i + 1) 0 then
      0.00981 * ((d.getD (i + 1) 0 - d.getD i 0 : ℚ) : ℝ) + u0_go d gwl i
    else 0

/-- `CPT.calc_cpt_params`: computes `(Qtn, effStress)`; `none` models the
`IndexError` of `effStress[0] = effStress[1]` on fewer than two samples.
The threaded `CPT` carries the cache fills performed by the `gamma`, `Ic`
and `qt` property accesses inside the computation. -/
noncomputable def calc_cpt_params (c : CPT) : Option ((List ℝ × List ℝ) × CPT) :=
  let g_c := getGamma c
  let g := g_c.1
  let c1 := g_c.2
  let n := c1.depth.length
  let totalStress := (List.range n).map (ts_go g c1.depth)
  let u0 := (List.range n).map (u0_go c1.depth c1.ground_water_level)
  let eff0 := List.zipWith (fun a b => a - b) totalStress u0
  match eff0 with
  | _e0 :: e1 :: rest =>
    let effStress := e1 :: e1 :: rest
    let ic_c := getIc c1
    let ic := ic_c.1
    let c2 := ic_c.2
    let nExp := List.zipWith (fun i e =>
      let x := 0.381 * i + 0.05 * (e / 0.1) - 0.15
      if 1 < x then 1 else x) ic effStress
    let qt_c := getQt c2
    let qt := qt_c.1
    let c3 := qt_c.2
    let Qtn := zipWith3 (fun (q : ℚ) (te : ℝ) (en : ℝ × ℝ) =>
      (((q : ℝ) - te) / 0.1) * ((0.1 / en.1) ^ en.2)) qt totalStress (effStress.zip nExp)
    some ((Qtn, effStress), c3)
  | _ => none

/-- The `CPT.Qtn` memoized getter: a miss computes `calc_cpt_params` and
fills both the `Qtn` and the `effStress` cache. -/
noncomputable def getQtn (c : CPT) : Option (List ℝ × CPT) :=
  match c.cQtn with
  | some v => some (v, c)
  | none =>
    match calc_cpt_params c with
    | none => none
    | some (qe, c1) => some (qe.1, { c1 with cQtn := some qe.1, ceff := some qe.2 })

/-- The `CPT.effStress` memoized getter: a miss recomputes `calc_cpt_params`
and overwrites both caches. -/
noncomputable def getEffStress (c : CPT) : Option (List ℝ × CPT) :=
  match c.ceff with
  | some v => some (v, c)
  | none =>
    match calc_cpt_params c with
    | none => none
    | some (qe, c1) => some (qe.2, { c1 with cQtn := some qe.1, ceff := some qe.2 })

/-- `vs_calc.cpt_vs_correlations.mcgann_2015` with its piecewise-linear
standard-deviation model. -/
noncomputable def mcgann_2015 (c : CPT) : (List ℝ × List ℝ) × CPT :=
  let vs := zipWith3 (fun (qc : ℚ) (fs : ℚ) (d : ℚ) =>
    18.4 * ((qc : ℝ) * 1000) ^ ((0.144 : ℝ)) * ((fs : ℝ) * 1000) ^ ((0.083 : ℝ))
      * ((d : ℝ)) ^ ((0.278 : ℝ))) c.Qc c.Fs c.depth
  let vs_sd := c.depth.map (fun (d : ℚ) =>
    if d ≤ 5 then (0.162 : ℝ)
    else if d < 10 then 0.216 - 0.0108 * (d : ℝ)
    else 0.108)
  ((vs, vs_sd), c)

/-- `vs_calc.cpt_vs_correlations.mcgann_2018` with its constant
standard deviation. -/
noncomputable def mcgann_2018 (c : CPT) : (List ℝ × List ℝ) × CPT :=
  let vs := zipWith3 (fun (qc : ℚ) (fs : ℚ) (d : ℚ) =>
    103.6 * ((qc : ℝ) * 1000) ^ ((0.0074 : ℝ)) * ((fs : ℝ) * 1000) ^ ((0.130 : ℝ))
      * ((d : ℝ)) ^ ((0.253 : ℝ))) c.Qc c.Fs c.depth
  let vs_sd := c.depth.map (fun (_ : ℚ) => (0.2367 : ℝ))
  ((vs, vs_sd), c)

/-- `vs_calc.cpt_vs_correlations.andrus_2007`. The line
`cpt.qt[cpt.qt <= 0] = 0.0001` overwrites non-positive entries of the cached
`qt` array in place, so the returned `CPT` carries the clamped cache. (The
source's `Vs_SD[Vs_SD == np.inf] = 0` guard for zero velocities is the value
this model produces anyway: `24 / 0 + 1 = 1` and `log 1 = 0` in `ℝ`.) -/
noncomputable def andrus_2007 (c : CPT) : (List ℝ × List ℝ) × CPT :=
  let qt_c := getQt c
  let qt := qt_c.1.map (fun x => if x ≤ 0 then (0.0001 : ℚ) else x)
  let c1 := { qt_c.2 with cqt := some qt }
  let ic_c := getIc c1
  let ic := ic_c.1
  let c2 := ic_c.2
  let vs := zipWith3 (fun (q : ℚ) (i : ℝ) (d : ℚ) =>
    2.27 * ((q : ℝ) * 1000) ^ ((0.412 : ℝ)) * i ^ ((0.989 : ℝ))
      * ((d : ℝ)) ^ ((0.033 : ℝ))) qt ic c2.depth
  let vs_sd := vs.map (fun v => Real.log (24 / v + 1))
  ((vs, vs_sd), c2)

/-- `vs_calc.cpt_vs_correlations.robertson_2009`. The line
`cpt.Qtn[cpt.Qtn <= 0] = 0.0001` overwrites non-positive entries of the
cached `Qtn` array in place; the subsequent `cpt.effStress` getter, on a
cache miss, recomputes `calc_cpt_params` and overwrites both caches. -/
noncomputable def robertson_2009 (c : CPT) : Option ((List ℝ × List ℝ) × CPT) :=
  match getQtn c with
  | none => none
  | some (qtn0, c1) =>
    let qtn := qtn0.map (fun x => if x ≤ 0 then (0.0001 : ℝ) else x)
    let c2 := { c1 with cQtn := some qtn }
    let ic_c := getIc c2
    let ic := ic_c.1
    let c3 := ic_c.2
    let alpha := ic.map (fun i => (10 : ℝ) ^ (0.55 * i + 1.68))
    match getEffStress c3 with
    | none => none
    | some (eff, c4) =>
      let vs := zipWith3 (fun (a : ℝ) (q : ℝ) (e : ℝ) =>
        (a * q) ^ ((0.5 : ℝ)) * (e / 0.1) ^ ((0.25 : ℝ))) alpha qtn eff
      let vs_sd := vs.map (fun _ => (0.2 : ℝ))
      some ((vs, vs_sd), c4)

/-- `vs_calc.cpt_vs_correlations.hegazy_2006` (same in-place `Qtn` clamp as
`robertson_2009`; its expression reads `Qtn`, then `effStress`, then `Ic`). -/
noncomputable def hegazy_2006 (c : CPT) : Option ((List ℝ × List ℝ) × CPT) :=
  match getQtn c with
  | none => none
  | some (qtn0, c1) =>
    let qtn := qtn0.map (fun x => if x ≤ 0 then (0.0001 : ℝ) else x)
    let c2 := { c1 with cQtn := some qtn }
    match getEffStress c2 with
    | none => none
    | some (eff, c3) =>
      let ic_c := getIc c3
      let ic := ic_c.1
      let c4 := ic_c.2
      let vs := zipWith3 (fun (q : ℝ) (e : ℝ) (i : ℝ) =>
        0.0831 * q * (e / 0.1) ^ ((0.25 : ℝ)) * Real.exp (1.786 * i)) qtn eff ic
      let vs_sd := vs.map (fun _ => (0.2 : ℝ))
      some ((vs, vs_sd), c4)

/-- `vs_calc.cpt_vs_correlations.CPT_CORRELATIONS`. -/
noncomputable def CPT_CORRELATIONS :
    List (String × (CPT → Option ((List ℝ × List ℝ) × CPT))) :=
  [("andrus_2007", fun c => some (andrus_2007 c)),
   ("robertson_2009", robertson_2009),
   ("hegazy_2006", hegazy_2006),
   ("mcgann_2015", fun c => some (mcgann_2015 c)),
   ("mcgann_2018", fun c => some (mcgann_2018 c))]

/-- The result of `VsProfile.__init__`: the stored (`self.`) fields and the
final contents of the caller's three numpy buffers, which the constructor
mutates in place when it synthesizes a boundary sample. -/
structure InitResult (α : Type) where
  max_depth : ℚ
  vs : List α
  vs_sd : List α
  depth : List ℚ
  vsBuf : List α
  sdBuf : List α
  depthBuf : List ℚ

/-- numpy boolean-mask indexing `xs[mask]` (for equal-length `mask`). -/
def maskFilter {α : Type} (mask : List Bool) (xs : List α) : List α :=
  (xs.zip mask).filterMap (fun p => if p.2 then some p.1 else none)

/-- The capped analysis depth of `VsProfile.__init__`:
`reduce_to = min(int(max(depth)), 30)`. -/
def reduceToQ (depth : List ℚ) : ℚ := min ((pyInt (depth.max?.getD 0) : ℤ) : ℚ) 30

/-- `VsProfile.__init__` (boundary clipping): caps the analysis depth at
`min(int(max(depth)), 30)`; when samples above the cap exist and no kept
sample sits exactly on it, moves the first sample above the cap onto the cap
(in place, in the caller's arrays), duplicating the last kept sample's
`vs`/`vs_sd` there unless the sample above the cap is the closer one; then
stores the mask-filtered arrays. `none` models the `IndexError` on an empty
kept set or an empty `depth`, and numpy's shape error when `vs`/`vs_sd` do
not match `depth` in length. -/
def vsProfileInit {α : Type} [Inhabited α] (vs vs_sd : List α) (depth : List ℚ) :
    Option (InitResult α) :=
  if vs.length = depth.length ∧ vs_sd.length = depth.length then
    match depth.max? with
    | none => none
    | some m =>
      let r : ℚ := min ((pyInt m : ℤ) : ℚ) 30
      let mask := depth.map (fun d => decide (d ≤ r))
      let toRemove := (List.range depth.length).filter (fun i => !(mask.getD i true))
      let toKeep := (List.range depth.length).filter (fun i => mask.getD i false)
      if toRemove.isEmpty then
        some ⟨r, maskFilter mask vs, maskFilter mask vs_sd, maskFilter mask depth,
          vs, vs_sd, depth⟩
      else
        match toKeep.getLast? with
        | none => none
        | some lk =>
          if r = depth.getD lk 0 then
            some ⟨r, maskFilter mask vs, maskFilter mask vs_sd, maskFilter mask depth,
              vs, vs_sd, depth⟩
          else
            let fr := toRemove.headD 0
            let middle := (depth.getD fr 0 + depth.getD lk 0) / 2
            if middle < r then
              let mask2 := mask.set fr true
              let depth2 := depth.set fr r
              some ⟨r, maskFilter mask2 vs, maskFilter mask2 vs_sd,
                maskFilter mask2 depth2, vs, vs_sd, depth2⟩
            else
              if r = depth.getD lk 0 then
                some ⟨r, maskFilter mask vs, maskFilter mask vs_sd,
                  maskFilter mask depth, vs, vs_sd, depth⟩
              else
                let mask2 := mask.set fr true
                let depth2 := depth.set fr r
                let vs2 := vs.set fr (vs.getD lk default)
                let sd2 := vs_sd.set fr (vs_sd.getD lk default)
                some ⟨r, maskFilter mask2 vs2, maskFilter mask2 sd2,
                  maskFilter mask2 depth2, vs2, sd2, depth2⟩
  else none

/-- `VsProfile.from_cpt`: looks the correlation up in `CPT_CORRELATIONS`
(`KeyError` when absent), applies it, and constructs the profile from the
returned `(vs, vs_sd)` and the CPT's own `depth` array — whose post-call
contents are whatever `VsProfile.__init__` left in the shared buffer. -/
noncomputable def from_cpt (cpt : CPT) (correlation : String) :
    Except String (InitResult ℝ × CPT) :=
  match registryGet CPT_CORRELATIONS correlation with
  | none => Except.error "not found in set of correlations"
  | some f =>
    match f cpt with
    | none => Except.error "error applying correlation"
    | some (vssd, cpt2) =>
      match vsProfileInit vssd.1 vssd.2 cpt2.depth with
      | none => Except.error "error constructing VsProfile"
      | some res => Except.ok (res, { cpt2 with depth := res.depthBuf })

/-- `filtering.SkipRecord`: one row of the skipped-records table. -/
structure SkipRecord where
  cpt_name : String
  reason : String
  reason_description : String
deriving DecidableEq

/-- `filtering.filtered_out_entry`. -/
def filtered_out_entry (cpt_name reason reason_description : String) : SkipRecord :=
  ⟨cpt_name, reason, reason_description⟩

/-- `filtering.identify_no_data_in_cpt`: flags a record whose raw data array
has size 0. -/
def identify_no_data_in_cpt (cpt_name : String) (cpt_record : List (List ℚ)) :
    Except String (Option SkipRecord) :=
  if (cpt_record.map List.length).sum = 0 then
    Except.ok (some (filtered_out_entry cpt_name "Type 01" "No data in record"))
  else Except.ok none

/-- `filtering.identify_duplicated_depth_values`: flags a CPT in which some
depth value occurs more than `max_num_same_depth_values` times. -/
def identify_duplicated_depth_values (cpt : CPT) (max_num_same_depth_values : ℕ) :
    Except String (Option SkipRecord) :=
  if cpt.depth.any (fun d => decide (max_num_same_depth_values < cpt.depth.count d)) then
    Except.ok (some (filtered_out_entry cpt.name "Type 03"
      "Duplicate depth detected - invalid CPT"))
  else Except.ok none

/-- `filtering.identify_values_less_than_threshold` (the interpolated
threshold in the description string is elided). -/
def identify_values_less_than_threshold (cpt : CPT) (threshold : ℚ) :
    Except String (Option SkipRecord) :=
  if (cpt.Fs.any (fun v => decide (v < threshold)))
      || (cpt.Qc.any (fun v => decide (v < threshold)))
      || (cpt.u.any (fun v => decide (v < threshold))) then
    Except.ok (some (filtered_out_entry cpt.name "Type 04"
      "Data values less than threshold"))
  else Except.ok none

/-- `filtering.identify_repeated_digits`. `count_digits` abstracts the
decimal-digit multiset of Python's float formatting (`str(v)` with zeros and
the decimal point removed), which is not representable exactly here; the
predicate's control flow around it is modelled faithfully. -/
def identify_repeated_digits (count_digits : ℚ → List ℕ) (cpt : CPT)
    (max_num_allowed_repeated_digits : ℕ) : Except String (Option SkipRecord) :=
  if cpt.Fs.any (fun fs_value =>
      (count_digits fs_value).any (fun v => decide (max_num_allowed_repeated_digits < v))) then
    Except.ok (some (filtered_out_entry cpt.name "Type 05"
      "More than the allowed repeated digits indicating a possible instrument problem"))
  else Except.ok none

/-- `filtering.identify_insufficient_depth`: `np.max` of an empty depth
array raises, modelled as `Except.error`. -/
def identify_insufficient_depth (cpt : CPT) (min_allowed_max_depth_m : ℚ) :
    Except String (Option SkipRecord) :=
  match cpt.depth.max? with
  | none => Except.error "zero-size array to reduction operation maximum"
  | some mx =>
    if mx < min_allowed_max_depth_m then
      Except.ok (some (filtered_out_entry cpt.name "Type 06"
        "Maximum depth less than the minimum allowed"))
    else Except.ok none

/-- `filtering.identify_insufficient_depth_span`: `np.max`/`np.min` of an
empty depth array raise, modelled as `Except.error`. -/
def identify_insufficient_depth_span (cpt : CPT) (min_allowed_depth_span_m : ℚ) :
    Except String (Option SkipRecord) :=
  match cpt.depth.max?, cpt.depth.min? with
  | some mx, some mn =>
    if mx - mn < min_allowed_depth_span_m then
      Except.ok (some (filtered_out_entry cpt.name "Type 07"
        "depth span less than the minimum allowed"))
    else Except.ok none
  | _, _ => Except.error "zero-size array to reduction operation maximum"

/-- `filtering.identify_location_duplication`: flags a CPT whose name is in
the precomputed duplicate-location name list. -/
def identify_location_duplication (cpt : CPT)
    (dup_names : List String) : Except String (Option SkipRecord) :=
  if cpt.name ∈ dup_names then
    Except.ok (some (filtered_out_entry cpt.name "Type 02"
      "CPT within the minimum separation of another CPT"))
  else Except.ok none

/-- `filtering.identify_why_cpt_filtered_out`: runs every filter (each
already partially applied to its parameter), collects the skip records of
the failing ones, and returns `none` when every filter passed. A filter
that raises propagates (`Except.error`). -/
def identify_why_cpt_filtered_out (cpt : CPT)
    (filters : List (CPT → Except String (Option SkipRecord))) :
    Except String (Option (List SkipRecord)) := do
  let results ← filters.mapM (fun f => f cpt)
  if results.any Option.isSome then
    return some (results.filterMap id)
  else
    return none

/-- `filtering.apply_filter_to_single_cpt`: keeps a CPT exactly when its
name was not recorded for filtering out. -/
def apply_filter_to_single_cpt (cpt : CPT) (names_to_filter_out : List String) :
    Option CPT :=
  if cpt.name ∉ names_to_filter_out then some cpt else none

theorem bind_ok_eq {α β : Type} (a : α) (f : α → Except String β) :
    (Except.ok a >>= f) = f a := rfl

theorem pure_eq_ok {α : Type} (a : α) : (pure a : Except String α) = Except.ok a := rfl

/-- C4: for every non-empty weight set, `normalise_weights` raises exactly
when the raw sum lies outside `[0.98, 1.02]`; inside the tolerance it returns
each weight divided by the raw sum, the result sums to exactly 1, and the
pairwise ratios of the original weights are preserved. -/
theorem normalise_weights_spec (w : List (String × ℚ)) (hne : w ≠ []) :
    ((∃ e, normalise_weights w = Except.error e) ↔
      (dictSum w < 98/100 ∨ 102/100 < dictSum w))
    ∧ (98/100 ≤ dictSum w → dictSum w ≤ 102/100 →
        normalise_weights w = Except.ok (w.map (fun kv => (kv.1, kv.2 / dictSum w)))
        ∧ dictSum (w.map (fun kv => (kv.1, kv.2 / dictSum w))) = 1
        ∧ (∀ i j : ℕ, ∀ a b, w.get? i = some a → w.get? j = some b →
            ∃ a' b', (w.map (fun kv => (kv.1, kv.2 / dictSum w))).get? i = some a'
              ∧ (w.map (fun kv => (kv.1, kv.2 / dictSum w))).get? j = some b'
              ∧ a'.1 = a.1 ∧ b'.1 = b.1 ∧ a'.2 * b.2 = a.2 * b'.2)) := by
  have hlen : w.length ≠ 0 := by
    simpa [List.length_eq_zero] using hne
  constructor
  · constructor
    · rintro ⟨e, he⟩
      by_contra hout
      push_neg at hout
      obtain ⟨h1, h2⟩ := hout
      rw [normalise_weights, if_pos hlen] at he
      rw [if_neg (by push_neg; exact ⟨h1, h2⟩)] at he
      by_cases hs : dictSum w ≠ 1
      · rw [if_pos hs] at he; exact Except.noConfusion he
      · rw [if_neg hs] at he; exact Except.noConfusion he
    · intro hout
      refine ⟨"Weights sum is not close enough to 1", ?_⟩
      rw [normalise_weights, if_pos hlen, if_pos (by tauto)]
  · intro hlo hhi
    have hrange : ¬ (dictSum w < 98/100 ∨ dictSum w > 102/100) := by
      push_neg; exact ⟨hlo, hhi⟩
    have hspos : (0:ℚ) < dictSum w := lt_of_lt_of_le (by norm_num) hlo
    have hsne : dictSum w ≠ 0 := ne_of_gt hspos
    have hmap : normalise_weights w
        = Except.ok (w.map (fun kv => (kv.1, kv.2 / dictSum w))) := by
      rw [normalise_weights, if_pos hlen, if_neg hrange]
      by_cases hs : dictSum w ≠ 1
      · rw [if_pos hs]
      · rw [if_neg hs]
        push_neg at hs
        congr 1
        conv_lhs => rw [← List.map_id w]
        refine List.map_congr_left ?_
        intro kv _
        simp [hs]
    refine ⟨hmap, ?_, ?_⟩
    · have h1 : (w.map (fun kv => (kv.1, kv.2 / dictSum w))).map (·.2)
          = w.map (fun kv => kv.2 * (dictSum w)⁻¹) := by
        simp [Function.comp, div_eq_mul_inv]
      rw [dictSum, h1, List.sum_map_mul_right]
      exact mul_inv_cancel₀ hsne
    · intro i j a b ha hb
      refine ⟨(a.1, a.2 / dictSum w), (b.1, b.2 / dictSum w), ?_, ?_, rfl, rfl, ?_⟩
      · rw [List.get?_map, ha]; rfl
      · rw [List.get?_map, hb]; rfl
      · rw [div_mul_eq_mul_div, mul_div_assoc]

/-- Witness for C4 at the in-tolerance set `{a: 0.51, b: 0.5}` (raw sum
1.01). -/
theorem normalise_weights_spec_witness :
    ([("a", (51:ℚ)/100), ("b", 1/2)] : List (String × ℚ)) ≠ []
    ∧ 98/100 ≤ dictSum [("a", (51:ℚ)/100), ("b", 1/2)]
    ∧ dictSum [("a", (51:ℚ)/100), ("b", 1/2)] ≤ 102/100
    ∧ normalise_weights [("a", (51:ℚ)/100), ("b", 1/2)]
        = Except.ok [("a", (51/100) / (101/100)), ("b", (1/2) / (101/100))]
    ∧ dictSum [("a", ((51:ℚ)/100) / (101/100)), ("b", (1/2) / (101/100))] = 1 := by
  have hne : ([("a", (51:ℚ)/100), ("b", 1/2)] : List (String × ℚ)) ≠ [] := by simp
  have hs : dictSum [("a", (51:ℚ)/100), ("b", 1/2)] = 101/100 := by
    norm_num [dictSum]
  have h := (normalise_weights_spec [("a", (51:ℚ)/100), ("b", 1/2)] hne).2
    (by rw [hs]; norm_num) (by rw [hs]; norm_num)
  refine ⟨hne, by rw [hs]; norm_num, by rw [hs]; norm_num, ?_, ?_⟩
  · rw [h.1, hs]
    simp
  · have := h.2.1
    rw [hs] at this
    convert this using 2 <;> norm_num [dictSum]

/-- C5 counterexample: the weight set `{a: 0.5, b: 0.55}` of the claim is
rejected by `normalise_weights` (its raw sum 1.05 exceeds the 1.02
tolerance bound), not normalized. -/
theorem normalise_weights_example_counterexample :
    normalise_weights [("a", (1:ℚ)/2), ("b", 11/20)]
      = Except.error "Weights sum is not close enough to 1" := by
  norm_num [normalise_weights, dictSum]

/-- C5 amended: the weight set `{a: 0.5, b: 0.55}` has raw sum 1.05, which
lies outside the tolerance interval `[0.98, 1.02]`, so `normalise_weights`
rejects it with a `ValueError` instead of normalizing it. -/
theorem normalise_weights_example_amended :
    dictSum [("a", (1:ℚ)/2), ("b", 11/20)] = 21/20
    ∧ ¬ (dictSum [("a", (1:ℚ)/2), ("b", 11/20)] ≤ 102/100)
    ∧ normalise_weights [("a", (1:ℚ)/2), ("b", 11/20)]
        = Except.error "Weights sum is not close enough to 1" := by
  refine ⟨by norm_num [dictSum], by norm_num [dictSum], ?_⟩
  norm_num [normalise_weights, dictSum]

/-- C1 amended: over exactly one contributing profile whose effective
normalised weight is 1, `calculate_weighted_vs30` returns the profile's own
Vs30 unchanged, while the reported standard deviation is 0 when `vs30_sd`
is 0 and otherwise `log(sqrt(vs30_sd**2))` — the logarithm of the standard
deviation, not the standard deviation itself. -/
theorem calculate_weighted_vs30_single_profile_amended (p : AggProfile)
    (w1 w2 w3 w4 n1 n2 n3 n4 : List (String × ℚ))
    (h1 : normalise_weights w1 = Except.ok n1)
    (h2 : normalise_weights w2 = Except.ok n2)
    (h3 : normalise_weights w3 = Except.ok n3)
    (h4 : normalise_weights w4 = Except.ok n4)
    (hw : get_weight p n1 (dictUpdate n2 n3) n4 = Except.ok 1) :
    calculate_weighted_vs30 [p] w1 w2 w3 w4
      = Except.ok (p.vs30,
          if p.vs30_sd = 0 then (0 : ℝ)
          else Real.log (Real.sqrt ((p.vs30_sd ^ 2 : ℚ) : ℝ))) := by
  rw [calculate_weighted_vs30]
  rw [h1, h2, h3, h4]
  simp only [bind_ok_eq, List.mapM_cons, List.mapM_nil, hw]
  simp only [bind_ok_eq, pure_eq_ok, List.zip_cons_cons, List.zip_nil_right,
    List.map_cons, List.map_nil, List.sum_cons, List.sum_nil, one_mul, add_zero,
    sub_self]
  rw [show ((0:ℚ) ^ 2 = 0) from by norm_num, add_zero]
  congr 1
  congr 1
  by_cases h : p.vs30_sd = 0
  · simp [h]
  · rw [if_neg (by simpa [pow_eq_zero_iff] using h), if_neg h]

/-- Witness for the amended C1: a single profile with `vs30 = 400`,
`vs30_sd = 0.5` and all-singleton weight sets. -/
theorem calculate_weighted_vs30_single_profile_witness :
    calculate_weighted_vs30 [⟨"a", some "c1", some "v1", 400, 1/2⟩]
      [("a", 1)] [("c1", 1)] [] [("v1", 1)]
      = Except.ok (400, Real.log (Real.sqrt ((((1:ℚ)/2) ^ 2 : ℚ) : ℝ))) := by
  have h := calculate_weighted_vs30_single_profile_amended
    ⟨"a", some "c1", some "v1", 400, 1/2⟩
    [("a", 1)] [("c1", 1)] [] [("v1", 1)]
    [("a", 1)] [("c1", 1)] [] [("v1", 1)]
    (by norm_num [normalise_weights, dictSum])
    (by norm_num [normalise_weights, dictSum])
    (by norm_num [normalise_weights, dictSum])
    (by norm_num [normalise_weights, dictSum])
    (by norm_num [get_weight, dictGet, dictUpdate, bind_ok_eq, List.find?])
  rw [h, if_neg (by norm_num)]

/-- C1 counterexample: one contributing profile (`vs30 = 400`,
`vs30_sd = 0.5`) with successfully normalising weight sets in which the
profile's velocity-correlation weight is 1/2: `calculate_weighted_vs30`
returns `(200, log(sqrt(160001/8)))` — neither the profile's Vs30 nor its
`vs30_sd`. -/
theorem calculate_weighted_vs30_single_profile_counterexample :
    calculate_weighted_vs30 [⟨"a", some "c1", some "v1", 400, 1/2⟩]
      [("a", 1)] [("c1", 1/2), ("c2", 1/2)] [] [("v1", 1)]
      = Except.ok (200, Real.log (Real.sqrt (((160001:ℚ)/8) : ℝ)))
    ∧ (200 : ℚ) ≠ 400
    ∧ Real.log (Real.sqrt (((160001:ℚ)/8) : ℝ)) ≠ ((1:ℚ)/2 : ℝ) := by
  refine ⟨?_, by norm_num, ?_⟩
  · rw [calculate_weighted_vs30]
    rw [show normalise_weights [("a", 1)] = Except.ok [("a", 1)] from by
        norm_num [normalise_weights, dictSum],
      show normalise_weights [("c1", (1:ℚ)/2), ("c2", 1/2)]
          = Except.ok [("c1", (1:ℚ)/2), ("c2", 1/2)] from by
        norm_num [normalise_weights, dictSum],
      show normalise_weights ([] : List (String × ℚ)) = Except.ok [] from rfl,
      show normalise_weights [("v1", 1)] = Except.ok [("v1", 1)] from by
        norm_num [normalise_weights, dictSum]]
    simp only [bind_ok_eq, List.mapM_cons, List.mapM_nil,
      show get_weight ⟨"a", some "c1", some "v1", 400, 1/2⟩ [("a", 1)]
          (dictUpdate [("c1", (1:ℚ)/2), ("c2", 1/2)] []) [("v1", 1)]
          = Except.ok (1/2) from by
        norm_num [get_weight, dictGet, dictUpdate, bind_ok_eq, List.find?]]
    simp only [bind_ok_eq, pure_eq_ok, List.zip_cons_cons, List.zip_nil_right,
      List.map_cons, List.map_nil, List.sum_cons, List.sum_nil]
    norm_num
  · have hsq : (3:ℝ) ≤ Real.sqrt (((160001:ℚ)/8) : ℝ) := by
      rw [Real.le_sqrt (by norm_num) (by positivity)]
      push_cast
      norm_num
    have hexp : Real.exp 1 < Real.sqrt (((160001:ℚ)/8) : ℝ) :=
      lt_of_lt_of_le (lt_trans Real.exp_one_lt_d9 (by norm_num)) hsq
    have hlog : (1:ℝ) < Real.log (Real.sqrt (((160001:ℚ)/8) : ℝ)) := by
      have := Real.log_lt_log (Real.exp_pos 1) hexp
      rwa [Real.log_exp] at this
    intro heq
    rw [heq] at hlog
    norm_num at hlog

/-- C2: `calc_vs30` returns `(vsz, 0)` — the depth-averaged velocity with
zero uncertainty, with no depth-correction correlation consulted — exactly
when the capped maximum depth is 30; for a capped maximum depth below 30 it
returns the result of invoking the registered depth-correction correlation
on the profile. -/
theorem calc_vs30_boundary (p : VsProfileS) :
    (∀ v, p.max_depth = 30 → calc_vsz p = some v →
      calc_vs30 p = Except.ok (some (v : ℝ), some 0))
    ∧ (∀ s f, p.max_depth < 30 → p.vs30_correlation = some s →
      registryGet VS30_CORRELATIONS s = some f → calc_vs30 p = f p) := by
  constructor
  · intro v h30 hv
    rw [calc_vs30, if_pos h30, hv]
  · intro s f hlt hs hf
    rw [calc_vs30, if_neg (ne_of_lt hlt), hs]
    show (match Option.bind (some s) (fun s => registryGet VS30_CORRELATIONS s) with
      | none => Except.error "not found in set of correlations"
      | some f => f p) = f p
    rw [show Option.bind (some s) (fun s => registryGet VS30_CORRELATIONS s)
        = registryGet VS30_CORRELATIONS s from rfl, hf]

/-- Witness for C2: a depth-30 profile yields `(vsz, 0)` directly; a
depth-15 profile dispatches to `boore_2011`. -/
theorem calc_vs30_boundary_witness :
    calc_vs30 ⟨"w30", [200, 200], [0, 0], [0, 30], none, none, 30⟩
      = Except.ok (some ((200 : ℚ) : ℝ), some 0)
    ∧ calc_vs30 ⟨"w15", [200, 200], [0, 0], [0, 15], none, some "boore_2011", 15⟩
      = boore_2011 ⟨"w15", [200, 200], [0, 0], [0, 15], none, some "boore_2011", 15⟩ := by
  constructor
  · exact (calc_vs30_boundary _).1 200 rfl (by
      norm_num [calc_vsz, convert_to_midpoint, ctm_go, List.range_succ,
        calc_vsz_time, time_go, List.range'])
  · exact (calc_vs30_boundary _).2 "boore_2011" boore_2011 (by norm_num) rfl
      (by simp [registryGet, List.find?])

theorem pyInt_lt_of_lt (q : ℚ) (n : ℕ) (hn : 0 < n) (h : q < n) : pyInt q < n := by
  rw [pyInt]
  by_cases hq : q < 0
  · rw [if_pos hq]
    have h1 : (⌈q⌉ : ℤ) ≤ 0 := Int.ceil_le.mpr (by exact_mod_cast le_of_lt hq)
    omega
  · rw [if_neg hq]
    exact_mod_cast Int.floor_lt.mpr (by exact_mod_cast h)

theorem pyInt_eq_floor_of_le {q : ℚ} {n : ℕ} (h : (n : ℚ) ≤ q) : pyInt q = ⌊q⌋ := by
  rw [pyInt, if_neg]
  push_neg
  exact le_trans (by positivity) h

/-- C3: below its table's supported range `boore_2011` fails with the
"VsProfile is not deep enough" error (capped maximum depth below 5) while
`boore_2004` returns the NaN sentinel pair without raising (capped maximum
depth below 10); inside the supported range each returns the pair computed
from the coefficient row at index `int(max_depth)` minus its fixed offset
(5 resp. 10). -/
theorem boore_depth_policy (p : VsProfileS) :
    (p.max_depth < 5 → boore_2011 p = Except.error "VsProfile is not deep enough")
    ∧ (p.max_depth < 10 → boore_2004 p = Except.ok (none, none))
    ∧ (∀ v, 5 ≤ p.max_depth → p.max_depth < 30 → calc_vsz p = some v →
        ∃ c, VS30_BOORE_2011_COEFFS.get? (pyInt p.max_depth - 5).toNat = some c
          ∧ boore_2011 p = Except.ok (some (b11_vs30 c v), some (b11_sd c v)))
    ∧ (∀ v, 10 ≤ p.max_depth → p.max_depth < 30 → calc_vsz p = some v →
        ∃ c, VS30_BOORE_2004_COEFFS.get? (pyInt p.max_depth - 10).toNat = some c
          ∧ boore_2004 p = Except.ok (some (b04_vs30 c v), some (c.sigma : ℝ))) := by
  refine ⟨?_, ?_, ?_, ?_⟩
  · intro h5
    rw [boore_2011, if_pos]
    have := pyInt_lt_of_lt p.max_depth 5 (by norm_num) h5
    omega
  · intro h10
    rw [boore_2004, if_pos]
    have := pyInt_lt_of_lt p.max_depth 10 (by norm_num) h10
    omega
  · intro v h5 h30 hv
    have hfl : pyInt p.max_depth = ⌊p.max_depth⌋ :=
      pyInt_eq_floor_of_le (n := 5) (by exact_mod_cast h5)
    have hge : (5 : ℤ) ≤ ⌊p.max_depth⌋ := Int.le_floor.mpr (by exact_mod_cast h5)
    have hlt : ⌊p.max_depth⌋ < 30 := Int.floor_lt.mpr (by exact_mod_cast h30)
    have hidx : (pyInt p.max_depth - 5).toNat < VS30_BOORE_2011_COEFFS.length := by
      rw [hfl, show VS30_BOORE_2011_COEFFS.length = 25 from rfl]
      omega
    refine ⟨VS30_BOORE_2011_COEFFS.get ⟨(pyInt p.max_depth - 5).toNat, hidx⟩,
      List.get?_eq_get hidx, ?_⟩
    rw [boore_2011, if_neg (by rw [hfl]; omega), List.get?_eq_get hidx, hv]
  · intro v h10 h30 hv
    have hfl : pyInt p.max_depth = ⌊p.max_depth⌋ :=
      pyInt_eq_floor_of_le (n := 10) (by exact_mod_cast h10)
    have hge : (10 : ℤ) ≤ ⌊p.max_depth⌋ := Int.le_floor.mpr (by exact_mod_cast h10)
    have hlt : ⌊p.max_depth⌋ < 30 := Int.floor_lt.mpr (by exact_mod_cast h30)
    have hidx : (pyInt p.max_depth - 10).toNat < VS30_BOORE_2004_COEFFS.length := by
      rw [hfl, show VS30_BOORE_2004_COEFFS.length = 20 from rfl]
      omega
    refine ⟨VS30_BOORE_2004_COEFFS.get ⟨(pyInt p.max_depth - 10).toNat, hidx⟩,
      List.get?_eq_get hidx, ?_⟩
    rw [boore_2004, if_neg (by rw [hfl]; omega), List.get?_eq_get hidx, hv]

/-- Witness for C3: a depth-1.5 profile triggers both shallow policies; a
depth-15 profile with `vsz = 200` hits both coefficient tables. -/
theorem boore_depth_policy_witness :
    boore_2011 ⟨"w3", [200], [0], [0, 3/2], none, some "boore_2011", 3/2⟩
      = Except.error "VsProfile is not deep enough"
    ∧ boore_2004 ⟨"w3", [200], [0], [0, 3/2], none, some "boore_2004", 3/2⟩
      = Except.ok (none, none)
    ∧ (∃ c, VS30_BOORE_2011_COEFFS.get?
        (pyInt (⟨"w15", [200, 200], [0, 0], [0, 15], none, some "boore_2011", 15⟩ :
          VsProfileS).max_depth - 5).toNat = some c
        ∧ boore_2011 ⟨"w15", [200, 200], [0, 0], [0, 15], none, some "boore_2011", 15⟩
          = Except.ok (some (b11_vs30 c 200), some (b11_sd c 200)))
    ∧ (∃ c, VS30_BOORE_2004_COEFFS.get?
        (pyInt (⟨"w15", [200, 200], [0, 0], [0, 15], none, some "boore_2004", 15⟩ :
          VsProfileS).max_depth - 10).toNat = some c
        ∧ boore_2004 ⟨"w15", [200, 200], [0, 0], [0, 15], none, some "boore_2004", 15⟩
          = Except.ok (some (b04_vs30 c 200), some (c.sigma : ℝ))) := by
  refine ⟨(boore_depth_policy _).1 (by norm_num), (boore_depth_policy _).2.1 (by norm_num),
    (boore_depth_policy _).2.2.1 200 (by norm_num) (by norm_num) ?_,
    (boore_depth_policy _).2.2.2 200 (by norm_num) (by norm_num) ?_⟩
  · norm_num [calc_vsz, convert_to_midpoint, ctm_go, List.range_succ,
      calc_vsz_time, time_go, List.range']
  · norm_num [calc_vsz, convert_to_midpoint, ctm_go, List.range_succ,
      calc_vsz_time, time_go, List.range']

theorem mapM_eq_ok_of_forall2 (cpt : CPT)
    (filters : List (CPT → Except String (Option SkipRecord)))
    (results : List (Option SkipRecord))
    (h : List.Forall₂ (fun f o => f cpt = Except.ok o) filters results) :
    filters.mapM (fun f => f cpt) = Except.ok results := by
  induction h with
  | nil => rfl
  | cons hfo _ ih =>
    rw [List.mapM_cons, hfo, bind_ok_eq, ih, bind_ok_eq]
    rfl

theorem length_filterMap_id (results : List (Option SkipRecord)) :
    (results.filterMap id).length = results.countP Option.isSome := by
  induction results with
  | nil => rfl
  | cons o rest ih =>
    cases o with
    | none => simpa [List.countP_cons] using ih
    | some r => simp [List.countP_cons, ih]

/-- C8: when each predicate in the filter list returns a result (no crash),
the pipeline runs all of them with no short-circuiting — each failing
predicate contributes its skip record to the returned set, the set holds one
record per failing predicate — and a profile is dropped by
`apply_filter_to_single_cpt` exactly when its name was recorded. -/
theorem filter_pipeline_no_short_circuit (cpt : CPT)
    (filters : List (CPT → Except String (Option SkipRecord)))
    (results : List (Option SkipRecord))
    (h : List.Forall₂ (fun f o => f cpt = Except.ok o) filters results) :
    identify_why_cpt_filtered_out cpt filters
      = Except.ok (if results.any Option.isSome then some (results.filterMap id) else none)
    ∧ (∀ i f r, filters.get? i = some f → f cpt = Except.ok (some r) →
        ∃ recs, identify_why_cpt_filtered_out cpt filters = Except.ok (some recs)
          ∧ r ∈ recs)
    ∧ (results.filterMap id).length = results.countP Option.isSome
    ∧ (∀ names : List String,
        apply_filter_to_single_cpt cpt names = none ↔ cpt.name ∈ names) := by
  have hrun : identify_why_cpt_filtered_out cpt filters
      = Except.ok (if results.any Option.isSome then some (results.filterMap id) else none) := by
    rw [identify_why_cpt_filtered_out, mapM_eq_ok_of_forall2 cpt filters results h,
      bind_ok_eq]
    by_cases hs : results.any Option.isSome
    · rw [if_pos hs, if_pos hs]; rfl
    · rw [if_neg hs, if_neg hs]; rfl
  refine ⟨hrun, ?_, length_filterMap_id results, ?_⟩
  · intro i f r hi hf
    have hlen := List.Forall₂.length_eq h
    have hilt : i < filters.length := by
      by_contra hge
      rw [List.get?_eq_none.mpr (le_of_not_lt hge)] at hi
      exact Option.noConfusion hi
    have hirt : i < results.length := by omega
    have hget := List.Forall₂.get h hilt hirt
    have hfeq : filters.get ⟨i, hilt⟩ = f := by
      have := List.get?_eq_get hilt
      rw [hi] at this
      exact (Option.some.injEq _ _).mp this.symm
    rw [hfeq, hf] at hget
    have hor : results.get ⟨i, hirt⟩ = some r := by
      injection hget with h1
      exact h1.symm
    have hmem : some r ∈ results := by
      rw [← hor]
      exact results.get_mem _ _
    have hrm : r ∈ results.filterMap id := by
      rw [List.mem_filterMap]
      exact ⟨some r, hmem, rfl⟩
    have hany : results.any Option.isSome = true := by
      rw [List.any_eq_true]
      exact ⟨some r, hmem, rfl⟩
    refine ⟨results.filterMap id, ?_, hrm⟩
    rw [hrun, hany]
    rfl
  · intro names
    rw [apply_filter_to_single_cpt]
    by_cases hm : cpt.name ∈ names
    · simp [hm]
    · simp [hm]

/-- Witness for C8: a profile failing two of three predicates gets both skip
records and is excluded when its name is recorded. -/
theorem filter_pipeline_no_short_circuit_witness :
    identify_why_cpt_filtered_out { name := "x", depth := [0], Qc := [1], Fs := [1], u := [0] }
      [fun c => Except.ok (some ⟨c.name, "Type 06", "d6"⟩),
       fun _ => Except.ok none,
       fun c => Except.ok (some ⟨c.name, "Type 07", "d7"⟩)]
      = Except.ok (some [⟨"x", "Type 06", "d6"⟩, ⟨"x", "Type 07", "d7"⟩])
    ∧ apply_filter_to_single_cpt
        { name := "x", depth := [0], Qc := [1], Fs := [1], u := [0] } ["x"] = none := by
  have h := filter_pipeline_no_short_circuit
    { name := "x", depth := [0], Qc := [1], Fs := [1], u := [0] }
    [fun c => Except.ok (some ⟨c.name, "Type 06", "d6"⟩),
     fun _ => Except.ok none,
     fun c => Except.ok (some ⟨c.name, "Type 07", "d7"⟩)]
    [some ⟨"x", "Type 06", "d6"⟩, none, some ⟨"x", "Type 07", "d7"⟩]
    (List.Forall₂.cons rfl (List.Forall₂.cons rfl (List.Forall₂.cons rfl List.Forall₂.nil)))
  refine ⟨?_, (h.2.2.2 ["x"]).mpr (by simp)⟩
  rw [h.1]
  rfl

/-- C9 amended: on a profile with empty measurement arrays, the no-data
predicate yields exactly one skip record and the duplicated-depth,
below-threshold and repeated-digit predicates return without crashing, but
the insufficient-depth and insufficient-depth-span predicates raise
(`np.max`/`np.min` of an empty array); the pipeline avoids the crash only
because profiles without data are removed before those predicates run. -/
theorem empty_cpt_predicate_amended (name : String) (cd : ℚ → List ℕ) (c : CPT)
    (k mx : ℕ) (t minD minSpan : ℚ)
    (h1 : c.depth = []) (h2 : c.Qc = []) (h3 : c.Fs = []) (h4 : c.u = []) :
    identify_no_data_in_cpt name []
      = Except.ok (some ⟨name, "Type 01", "No data in record"⟩)
    ∧ identify_duplicated_depth_values c k = Except.ok none
    ∧ identify_values_less_than_threshold c t = Except.ok none
    ∧ identify_repeated_digits cd c mx = Except.ok none
    ∧ (∃ e, identify_insufficient_depth c minD = Except.error e)
    ∧ (∃ e, identify_insufficient_depth_span c minSpan = Except.error e) := by
  refine ⟨rfl, ?_, ?_, ?_, ?_, ?_⟩
  · simp [identify_duplicated_depth_values, h1]
  · simp [identify_values_less_than_threshold, h2, h3, h4]
  · simp [identify_repeated_digits, h3]
  · rw [identify_insufficient_depth, h1]
    exact ⟨_, rfl⟩
  · rw [identify_insufficient_depth_span, h1]
    exact ⟨_, rfl⟩

/-- Witness for the amended C9 at a concrete empty-array profile. -/
theorem empty_cpt_predicate_witness :
    identify_no_data_in_cpt "c" []
      = Except.ok (some ⟨"c", "Type 01", "No data in record"⟩)
    ∧ identify_duplicated_depth_values { name := "c", depth := [], Qc := [], Fs := [], u := [] } 1
      = Except.ok none
    ∧ identify_values_less_than_threshold { name := "c", depth := [], Qc := [], Fs := [], u := [] } 0
      = Except.ok none
    ∧ identify_repeated_digits (fun _ => []) { name := "c", depth := [], Qc := [], Fs := [], u := [] } 3
      = Except.ok none
    ∧ (∃ e, identify_insufficient_depth { name := "c", depth := [], Qc := [], Fs := [], u := [] } 5
        = Except.error e)
    ∧ (∃ e, identify_insufficient_depth_span { name := "c", depth := [], Qc := [], Fs := [], u := [] } 1
        = Except.error e) :=
  empty_cpt_predicate_amended "c" (fun _ => [])
    { name := "c", depth := [], Qc := [], Fs := [], u := [] } 1 3 0 5 1 rfl rfl rfl rfl

/-- C9 counterexample: `identify_insufficient_depth` raises on a profile
with an empty depth array, so "every other predicate returns without
crashing" fails on the code. -/
theorem empty_cpt_predicate_counterexample :
    identify_insufficient_depth { name := "c", depth := [], Qc := [], Fs := [], u := [] } 5
      = Except.error "zero-size array to reduction operation maximum" := rfl

/-- C6 amended: a computed cache value is preserved by the correlations only
when its entries are all positive; `andrus_2007` (resp. `robertson_2009`)
overwrites non-positive entries of the cached `qt` (resp. `Qtn`) array in
place with 0.0001, so the cached value can change without constructing a new
CPT. This theorem is the preserved direction (all-positive caches). -/
theorem cpt_cache_mutation_amended :
    (∀ (c : CPT) (v : List ℚ), c.cqt = some v → (∀ x ∈ v, 0 < x) →
      ((andrus_2007 c).2).cqt = some v)
    ∧ (∀ (c : CPT) (w e : List ℝ), c.cQtn = some w → c.ceff = some e →
      (∀ x ∈ w, (0:ℝ) < x) →
      ∃ res, robertson_2009 c = some res ∧ res.2.cQtn = some w ∧ res.2.ceff = some e) := by
  constructor
  · intro c v hc hpos
    have hmap : v.map (fun x => if x ≤ 0 then (0.0001 : ℚ) else x) = v := by
      conv_rhs => rw [← List.map_id v]
      refine List.map_congr_left fun x hx => ?_
      rw [if_neg (not_le.mpr (hpos x hx))]
      rfl
    rw [andrus_2007]
    simp only [getQt, hc, hmap]
    cases hic : c.cIc with
    | none => simp [getIc, hic]
    | some ic => simp [getIc, hic]
  · intro c w e hq he hpos
    have hmap : w.map (fun x => if x ≤ 0 then (0.0001 : ℝ) else x) = w := by
      conv_rhs => rw [← List.map_id w]
      refine List.map_congr_left fun x hx => ?_
      rw [if_neg (not_le.mpr (hpos x hx))]
      rfl
    rw [robertson_2009]
    simp only [getQtn, hq, hmap]
    cases hic : c.cIc with
    | none =>
      simp only [getIc, hic]
      simp [getEffStress, he]
    | some ic =>
      simp only [getIc, hic]
      simp [getEffStress, he]

/-- Witness for the amended C6 at a CPT whose caches are filled with
positive values. -/
theorem cpt_cache_mutation_witness :
    ((andrus_2007 ⟨"c", [1, 2], [1, 1], [1, 1], [0, 0], 0, 0, 1, 4/5,
        some [1], some [1], some [2], some [3]⟩).2).cqt = some [1]
    ∧ ∃ res, robertson_2009 ⟨"c", [1, 2], [1, 1], [1, 1], [0, 0], 0, 0, 1, 4/5,
        some [1], some [1], some [2], some [3]⟩ = some res
      ∧ res.2.cQtn = some [2] ∧ res.2.ceff = some [3] :=
  ⟨cpt_cache_mutation_amended.1 _ [1] rfl (by norm_num),
   cpt_cache_mutation_amended.2 _ [2] [3] rfl rfl (by norm_num)⟩

/-- C6 counterexample: on a CPT with a non-positive net resistance the
cached `qt` computed as `-1/5` is overwritten in place to `0.0001` by
applying the registered correlation `andrus_2007`, so a cached derived field
changed during the object's lifetime. -/
theorem cpt_cache_mutation_counterexample :
    ((getQt { name := "c", depth := [1], Qc := [0], Fs := [1], u := [1] }).2).cqt
      = some [-1/5]
    ∧ ((andrus_2007
        ((getQt { name := "c", depth := [1], Qc := [0], Fs := [1], u := [1] }).2)).2).cqt
      = some [1/10000]
    ∧ (some [(-1:ℚ)/5] : Option (List ℚ)) ≠ some [1/10000] := by
  refine ⟨?_, ?_, by norm_num⟩
  · norm_num [getQt, qtRaw]
  · norm_num [andrus_2007, getQt, qtRaw, getIc]

theorem maskFilter_nil {α : Type} (mask : List Bool) : maskFilter mask ([] : List α) = [] := by
  cases mask <;> rfl

theorem maskFilter_cons {α : Type} (b : Bool) (mask : List Bool) (x : α) (xs : List α) :
    maskFilter (b :: mask) (x :: xs)
      = if b then x :: maskFilter mask xs else maskFilter mask xs := by
  cases b <;> simp [maskFilter]

theorem maskFilter_append {α : Type} (m1 m2 : List Bool) (x1 x2 : List α)
    (h : m1.length = x1.length) :
    maskFilter (m1 ++ m2) (x1 ++ x2) = maskFilter m1 x1 ++ maskFilter m2 x2 := by
  induction x1 generalizing m1 with
  | nil =>
    rw [List.length_nil, List.length_eq_zero] at h
    subst h
    rfl
  | cons x xs ih =>
    cases m1 with
    | nil => exact absurd h (by simp)
    | cons b m1 =>
      rw [List.cons_append, List.cons_append, maskFilter_cons, maskFilter_cons]
      cases b
      · simpa using ih m1 (by simpa using h)
      · simpa using ih m1 (by simpa using h)

theorem maskFilter_replicate_true {α : Type} (xs : List α) :
    maskFilter (List.replicate xs.length true) xs = xs := by
  induction xs with
  | nil => rfl
  | cons x xs ih => simpa [List.replicate_succ, maskFilter_cons] using ih

theorem maskFilter_replicate_false {α : Type} (k : ℕ) (xs : List α) :
    maskFilter (List.replicate k false) xs = [] := by
  induction xs generalizing k with
  | nil => exact maskFilter_nil _
  | cons x xs ih =>
    cases k with
    | zero => rfl
    | succ k => simpa [List.replicate_succ, maskFilter_cons] using ih k

theorem sorted_max?_eq_getLast? (l : List ℚ) (hs : l.Pairwise (· ≤ ·))
    (hne : l ≠ []) : l.max? = l.getLast? := by
  rw [List.getLast?_eq_getLast l hne]
  haveI : Std.Antisymm (fun (x1 x2 : ℚ) => x1 ≤ x2) := ⟨@fun _ _ h1 h2 => le_antisymm h1 h2⟩
  refine (List.max?_eq_some_iff (fun a => le_refl a) (fun a b => max_choice a b)
    (fun a b c => max_le_iff)).mpr ⟨List.getLast_mem hne, ?_⟩
  intro b hb
  have hsplit : l = l.dropLast ++ [l.getLast hne] := (List.dropLast_append_getLast hne).symm
  rw [hsplit] at hs hb
  rcases List.mem_append.mp hb with hb1 | hb2
  · exact (List.pairwise_append.mp hs).2.2 b hb1 _ (by simp)
  · rw [List.mem_singleton.mp hb2]

theorem filter_range_lt (a n : ℕ) (h : a ≤ n) :
    (List.range n).filter (fun i => decide (i < a)) = List.range a := by
  rw [show n = a + (n - a) from (Nat.add_sub_cancel' h).symm, List.range_add,
    List.filter_append]
  have h1 : (List.range a).filter (fun i => decide (i < a)) = List.range a :=
    List.filter_eq_self.mpr (fun x hx => by simpa using List.mem_range.mp hx)
  have h2 : ((List.range (n - a)).map (a + ·)).filter (fun i => decide (i < a)) = [] :=
    List.filter_eq_nil_iff.mpr (fun x hx => by
      obtain ⟨i, _, hxi⟩ := List.mem_map.mp hx
      simp [← hxi])
  rw [h1, h2, List.append_nil]

theorem filter_range_not_lt (a b : ℕ) :
    (List.range (a + b)).filter (fun i => !decide (i < a)) = (List.range b).map (a + ·) := by
  rw [List.range_add, List.filter_append]
  have h1 : (List.range a).filter (fun i => !decide (i < a)) = [] :=
    List.filter_eq_nil_iff.mpr (fun x hx => by simpa using List.mem_range.mp hx)
  have h2 : ((List.range b).map (a + ·)).filter (fun i => !decide (i < a))
      = (List.range b).map (a + ·) :=
    List.filter_eq_self.mpr (fun x hx => by
      obtain ⟨i, _, hxi⟩ := List.mem_map.mp hx
      simp [← hxi])
  rw [h1, h2, List.nil_append]

theorem getD_mask_shape (a b i : ℕ) (d : Bool) (h : i < a + b) :
    (List.replicate a true ++ List.replicate b false).getD i d = decide (i < a) := by
  rw [List.getD_eq_getElem?_getD, List.getElem?_append]
  by_cases hia : i < a
  · rw [if_pos (by simpa using hia), List.getElem?_replicate,
      if_pos (by simpa using hia)]
    simp [hia]
  · rw [if_neg (by simpa using hia), List.getElem?_replicate, if_pos (by simp at hia ⊢; omega)]
    simp [hia]

theorem set_append_length {α : Type} (xs ys : List α) (v : α) :
    (xs ++ ys).set xs.length v = xs ++ ys.set 0 v := by
  induction xs with
  | nil => rfl
  | cons x xs ih => simp [ih]

theorem set_replicate_append (a k : ℕ) :
    (List.replicate a true ++ List.replicate (k + 1) false).set a true
      = List.replicate a true ++ true :: List.replicate k false := by
  have h := set_append_length (List.replicate a true) (List.replicate (k + 1) false) true
  rw [List.length_replicate] at h
  rw [h, List.replicate_succ]
  rfl

theorem sorted_dropWhile_gt (l : List ℚ) (r : ℚ) (hs : l.Pairwise (· ≤ ·)) :
    ∀ x ∈ l.dropWhile (fun d => decide (d ≤ r)), r < x := by
  induction l with
  | nil => simp [List.dropWhile]
  | cons y ys ih =>
    intro x hx
    rw [List.dropWhile_cons] at hx
    by_cases hy : y ≤ r
    · rw [if_pos (by simpa using hy)] at hx
      exact ih hs.tail x hx
    · rw [if_neg (by simpa using hy)] at hx
      rcases List.mem_cons.mp hx with rfl | hx2
      · exact lt_of_not_le hy
      · exact lt_of_lt_of_le (not_le.mp hy) ((List.pairwise_cons.mp hs).1 x hx2)

theorem getLast?_range (a : ℕ) (h : 0 < a) : (List.range a).getLast? = some (a - 1) := by
  obtain ⟨k, rfl⟩ : ∃ k, a = k + 1 := ⟨a - 1, by omega⟩
  rw [List.range_succ, List.getLast?_concat]
  simp

theorem headD_range_map (a b : ℕ) (h : 0 < b) :
    ((List.range b).map (a + ·)).headD 0 = a := by
  obtain ⟨k, rfl⟩ : ∃ k, b = k + 1 := ⟨b - 1, by omega⟩
  rw [List.range_succ_eq_map]
  simp

/-- C7: for every profile constructed from a nonempty, nondecreasing,
nonnegative raw depth series with at least one sample at or below the cap
(and channel arrays matching `depth` in length), the stored capped maximum
depth equals `min(30, floor(max(depth)))` and the stored depth array's last
entry equals that capped maximum depth exactly, the constructor synthesizing
the boundary sample when needed. -/
theorem vsProfileInit_boundary {α : Type} [Inhabited α] (vs vs_sd : List α)
    (depth : List ℚ) (m : ℚ)
    (hlv : vs.length = depth.length) (hls : vs_sd.length = depth.length)
    (hm : depth.max? = some m) (hs : depth.Pairwise (· ≤ ·))
    (h0 : ∀ d ∈ depth, 0 ≤ d)
    (hk : ∃ d ∈ depth, d ≤ min ((pyInt m : ℤ) : ℚ) 30) :
    ∃ res : InitResult α, vsProfileInit vs vs_sd depth = some res
      ∧ res.max_depth = min 30 ((⌊m⌋ : ℤ) : ℚ)
      ∧ res.depth.getLast? = some res.max_depth := by
  have hmmem : m ∈ depth := List.max?_mem (fun _ _ => max_choice _ _) hm
  have hm0 : 0 ≤ m := h0 m hmmem
  have hpy : pyInt m = ⌊m⌋ := by rw [pyInt, if_neg (not_lt.mpr hm0)]
  set r : ℚ := min ((pyInt m : ℤ) : ℚ) 30 with hrdef
  have hrm : r = min 30 ((⌊m⌋ : ℤ) : ℚ) := by rw [hrdef, hpy, min_comm]
  have hrlem : r ≤ m := by
    rw [hrdef]
    exact le_trans (min_le_left _ _) (by rw [hpy]; exact_mod_cast Int.floor_le m)
  set A := depth.takeWhile (fun d => decide (d ≤ r)) with hAdef
  set B := depth.dropWhile (fun d => decide (d ≤ r)) with hBdef
  have hAB : A ++ B = depth := List.takeWhile_append_dropWhile _ _
  have hA : ∀ x ∈ A, x ≤ r := fun x hx => by simpa using List.mem_takeWhile_imp hx
  have hB : ∀ x ∈ B, r < x := by rw [hBdef]; exact sorted_dropWhile_gt depth r hs
  have hlen : A.length + B.length = depth.length := by rw [← hAB, List.length_append]
  have hmask : depth.map (fun d => decide (d ≤ r))
      = List.replicate A.length true ++ List.replicate B.length false := by
    rw [← hAB, List.map_append]
    congr 1
    · refine List.eq_replicate.mpr ⟨by simp, fun b hb => ?_⟩
      obtain ⟨x, hx, rfl⟩ := List.mem_map.mp hb
      simpa using hA x hx
    · refine List.eq_replicate.mpr ⟨by simp, fun b hb => ?_⟩
      obtain ⟨x, hx, rfl⟩ := List.mem_map.mp hb
      simpa using not_le.mpr (hB x hx)
  have htoR : (List.range depth.length).filter
      (fun i => !((List.replicate A.length true ++ List.replicate B.length false).getD i true))
      = (List.range B.length).map (A.length + ·) := by
    rw [← hlen, List.filter_congr (fun i hi => by
      rw [getD_mask_shape _ _ _ _ (List.mem_range.mp hi)])]
    exact filter_range_not_lt _ _
  have htoK : (List.range depth.length).filter
      (fun i => (List.replicate A.length true ++ List.replicate B.length false).getD i false)
      = List.range A.length := by
    rw [← hlen, List.filter_congr (fun i hi => by
      rw [getD_mask_shape _ _ _ _ (List.mem_range.mp hi)])]
    exact filter_range_lt _ _ (by omega)
  simp only [vsProfileInit, hm]
  rw [if_pos (⟨hlv, hls⟩ : vs.length = depth.length ∧ vs_sd.length = depth.length)]
  rw [← hrdef, hmask, htoR, htoK]
  cases hBe : B with
  | nil =>
    have hAeq : A = depth := by rw [← hAB, hBe, List.append_nil]
    have hdlen : A.length = depth.length := by rw [hAeq]
    simp only [List.length_nil, List.range_zero, List.map_nil, List.isEmpty_nil,
      List.replicate_zero, List.append_nil]
    rw [if_true]
    refine ⟨_, rfl, hrm, ?_⟩
    show (maskFilter (List.replicate A.length true) depth).getLast? = some r
    rw [hdlen, maskFilter_replicate_true,
      ← sorted_max?_eq_getLast? depth hs (by rintro rfl; simp at hm), hm]
    have hmr : m = r := le_antisymm (hA m (by rw [hAeq]; exact hmmem)) hrlem
    rw [hmr]
  | cons hb tb =>
    have hApos : 0 < A.length := by
      obtain ⟨d, hd, hdr⟩ := hk
      rcases List.mem_append.mp (hAB ▸ hd) with hdA | hdB
      · exact List.length_pos.mpr (List.ne_nil_of_mem hdA)
      · exact absurd hdr (not_le.mpr (hB d hdB))
    have hAne : A ≠ [] := List.ne_nil_of_length_pos hApos
    rw [if_neg (by simp [List.range_succ])]
    simp only [getLast?_range A.length hApos]
    have hlast : depth.getD (A.length - 1) 0 = A.getLast hAne := by
      rw [← hAB, List.getD_eq_getElem?_getD, List.getElem?_append, if_pos (by omega),
        List.getLast_eq_getElem A hAne, List.getElem?_eq_getElem (by omega)]
      rfl
    have hfrd : depth.getD A.length 0 = hb := by
      rw [← hAB, hBe, List.getD_eq_getElem?_getD, List.getElem?_append, if_neg (by omega)]
      simp
    have hfr : ((List.range (hb :: tb).length).map (fun x => A.length + x)).headD 0
        = A.length := by
      rw [List.length_cons]
      exact headD_range_map _ _ (Nat.succ_pos _)
    simp only [hfr, hlast, hfrd]
    by_cases hre : r = A.getLast hAne
    · rw [if_pos hre]
      have hfil : maskFilter
          (List.replicate A.length true ++ List.replicate (hb :: tb).length false) depth
          = A := by
        rw [← hAB, hBe, maskFilter_append _ _ _ _ (by rw [List.length_replicate]),
          maskFilter_replicate_true, maskFilter_replicate_false, List.append_nil]
      refine ⟨_, rfl, hrm, ?_⟩
      show (maskFilter
        (List.replicate A.length true ++ List.replicate (hb :: tb).length false) depth).getLast?
        = some r
      rw [hfil, List.getLast?_eq_getLast A hAne, hre]
    · rw [if_neg hre]
      have hset_depth : depth.set A.length r = A ++ r :: tb := by
        rw [← hAB, hBe, set_append_length]
        rfl
      have hset_mask : (List.replicate A.length true
            ++ List.replicate (hb :: tb).length false).set A.length true
          = List.replicate A.length true ++ true :: List.replicate tb.length false := by
        rw [List.length_cons]
        exact set_replicate_append A.length tb.length
      have hfil2 : maskFilter
          (List.replicate A.length true ++ true :: List.replicate tb.length false)
          (A ++ r :: tb) = A ++ [r] := by
        rw [maskFilter_append _ _ _ _ (by rw [List.length_replicate]),
          maskFilter_replicate_true, maskFilter_cons, if_pos rfl,
          maskFilter_replicate_false]
      by_cases hmid : (hb + A.getLast hAne) / 2 < r
      · rw [if_pos hmid]
        refine ⟨_, rfl, hrm, ?_⟩
        show (maskFilter ((List.replicate A.length true
            ++ List.replicate (hb :: tb).length false).set A.length true)
          (depth.set A.length r)).getLast? = some r
        rw [hset_mask, hset_depth, hfil2, List.getLast?_concat]
      · rw [if_neg hmid, if_neg hre]
        refine ⟨_, rfl, hrm, ?_⟩
        show (maskFilter ((List.replicate A.length true
            ++ List.replicate (hb :: tb).length false).set A.length true)
          (depth.set A.length r)).getLast? = some r
        rw [hset_mask, hset_depth, hfil2, List.getLast?_concat]

/-- Witness for C7: depth series `[0, 1.5, 2.5]` caps at 2 and the stored
depth array ends exactly at 2. -/
theorem vsProfileInit_boundary_witness :
    ∃ res : InitResult ℚ, vsProfileInit [1, 2, 3] [0, 0, 0] [0, 3/2, 5/2] = some res
      ∧ res.max_depth = min 30 ((⌊(5/2 : ℚ)⌋ : ℤ) : ℚ)
      ∧ res.depth.getLast? = some res.max_depth :=
  vsProfileInit_boundary [1, 2, 3] [0, 0, 0] [0, 3/2, 5/2] (5/2) rfl rfl
    (by simp [List.max?]; norm_num [max_def])
    (by norm_num [List.pairwise_cons])
    (by simp; norm_num)
    ⟨0, by simp, by norm_num [pyInt]⟩

theorem vsProfileInit_eval_concrete (v1 v2 s1 s2 : ℝ) :
    vsProfileInit [v1, v2] [s1, s2] [0, 29/10]
      = some ⟨2, [v1, v2], [s1, s2], [0, 2], [v1, v2], [s1, s2], [0, 2]⟩ := by
  have hmax : List.max? [0, (29:ℚ)/10] = some (29/10) := by
    simp [List.max?]
    norm_num [max_def]
  have hpy : (pyInt ((29:ℚ)/10) : ℚ) = 2 := by norm_num [pyInt]
  simp only [vsProfileInit, hmax]
  rw [if_pos (by simp : ([v1, v2] : List ℝ).length = ([0, (29:ℚ)/10] : List ℚ).length
    ∧ ([s1, s2] : List ℝ).length = ([0, (29:ℚ)/10] : List ℚ).length)]
  norm_num [hpy, maskFilter, List.range_succ, List.filterMap]

/-- C10: constructing a `VsProfile` can mutate the caller's arrays —
`from_cpt` with `mcgann_2015` on a CPT whose depth series is `[0, 2.9]`
leaves the CPT's own depth buffer as `[0, 2]` — while for inputs whose
depths all lie at or below the cap the three input buffers are returned
unchanged. -/
theorem vsProfileInit_frame_effect :
    (∃ res cpt2, from_cpt ⟨"c", [0, 29/10], [1, 1], [1, 1], [0, 0], 0, 0, 1, 4/5,
        none, none, none, none⟩ "mcgann_2015" = Except.ok (res, cpt2)
      ∧ cpt2.depth = [0, 2]
      ∧ cpt2.depth ≠ (⟨"c", [0, 29/10], [1, 1], [1, 1], [0, 0], 0, 0, 1, 4/5,
          none, none, none, none⟩ : CPT).depth)
    ∧ (∀ (α : Type) (inst : Inhabited α) (vs vs_sd : List α) (depth : List ℚ),
        vs.length = depth.length → vs_sd.length = depth.length → depth ≠ [] →
        (∀ d ∈ depth, d ≤ reduceToQ depth) →
        ∃ res : InitResult α, @vsProfileInit α inst vs vs_sd depth = some res
          ∧ res.vsBuf = vs ∧ res.sdBuf = vs_sd ∧ res.depthBuf = depth) := by
  constructor
  · simp only [from_cpt, registryGet, CPT_CORRELATIONS, List.find?,
      show (decide ("andrus_2007" = "mcgann_2015")) = false from by decide,
      show (decide ("robertson_2009" = "mcgann_2015")) = false from by decide,
      show (decide ("hegazy_2006" = "mcgann_2015")) = false from by decide,
      show (decide ("mcgann_2015" = "mcgann_2015")) = true from by decide,
      decide_True, Option.map_some', mcgann_2015, zipWith3, List.map]
    rw [vsProfileInit_eval_concrete]
    exact ⟨_, _, rfl, rfl, by norm_num⟩
  · intro α inst vs vs_sd depth hlv hls hne hall
    obtain ⟨m, hm⟩ : ∃ m, depth.max? = some m := by
      cases hmm : depth.max? with
      | none => exact absurd (List.max?_eq_none_iff.mp hmm) hne
      | some m => exact ⟨m, rfl⟩
    have hr : reduceToQ depth = min ((pyInt m : ℤ) : ℚ) 30 := by
      rw [reduceToQ, hm]
      rfl
    simp only [vsProfileInit, hm]
    rw [if_pos (⟨hlv, hls⟩ : vs.length = depth.length ∧ vs_sd.length = depth.length)]
    have hempty : (List.range depth.length).filter
        (fun i => !((depth.map (fun d => decide (d ≤ min ((pyInt m : ℤ) : ℚ) 30))).getD i true))
        = [] := by
      refine List.filter_eq_nil_iff.mpr (fun i hi => ?_)
      have hilt : i < depth.length := List.mem_range.mp hi
      have hgd : ((depth.map (fun d =>
          decide (d ≤ min ((pyInt m : ℤ) : ℚ) 30))).getD i true) = true := by
        rw [List.getD_eq_getElem?_getD, List.getElem?_map, List.getElem?_eq_getElem hilt]
        simp only [Option.map_some', Option.getD_some, decide_eq_true_eq]
        rw [← hr]
        exact hall _ (depth.getElem_mem hilt)
      rw [hgd]
      simp
    rw [hempty]
    simp only [List.isEmpty_nil, eq_self_iff_true, if_true]
    exact ⟨_, rfl, rfl, rfl, rfl⟩

/-- Witness for C10's universal (no-mutation) part at a concrete inside-cap
input. -/
theorem vsProfileInit_frame_effect_witness :
    ∃ res : InitResult ℚ, vsProfileInit [5, 6] [0, 0] [0, 1] = some res
      ∧ res.vsBuf = [5, 6] ∧ res.sdBuf = [0, 0] ∧ res.depthBuf = [0, 1] := by
  refine vsProfileInit_frame_effect.2 ℚ _ [5, 6] [0, 0] [0, 1] rfl rfl (by simp) ?_
  intro d hd
  have hred : reduceToQ [0, 1] = 1 := by
    norm_num [reduceToQ, List.max?, max_def, pyInt]
  rw [hred]
  rcases List.mem_cons.mp hd with rfl | hd2
  · norm_num
  · rcases List.mem_cons.mp hd2 with rfl | h3
    · norm_num
    · simp at h3
